import Mathlib

/-!
Verification of the `drift` schema-migration SQL generator.

The development shallowly embeds the data model and operations of the program:
`DataType`, the dialect capability set with its PostgreSQL and MySQL
implementations, the six migration-step variants and the `Migration`
container.  Machine strings are Lean `String`s; the standard output of the
external-process step is supplied by an explicit environment function, and its
parsing (which can panic in the original on a segment without a colon) is
modelled with `Option`, `none` standing for the panic.
-/

/-- The abstract column types, one fixed uppercase token each. -/
inductive DataType where
  | Integer
  | Text
  | Boolean
  | Decimal
  | Timestamp
deriving DecidableEq

/-- The `Display` rendering of a `DataType`. -/
def DataType.render : DataType → String
  | .Integer => "INTEGER"
  | .Text => "TEXT"
  | .Boolean => "BOOLEAN"
  | .Decimal => "DECIMAL"
  | .Timestamp => "TIMESTAMP"

/-- A column description used by the add-column step. -/
structure Column where
  name : String
  data_type : DataType
  nullable : Bool

/-- Optional aspects of a column change; `none` means "leave unspecified". -/
structure ColumnOptions where
  nullable : Option Bool
  default : Option String
  unique : Option Bool

/-- A literal SQL value or a column reference, embedded verbatim. -/
inductive UpdateValue where
  | Fixed (val : String)
  | Column (col : String)

/-- Comparison operators usable in a WHERE condition. -/
inductive Operator where
  | Eq | Ne | Gt | Lt | Gte | Lte | Like | In

/-- The fixed SQL token of each operator. -/
def Operator.as_str : Operator → String
  | .Eq => "="
  | .Ne => "!="
  | .Gt => ">"
  | .Lt => "<"
  | .Gte => ">="
  | .Lte => "<="
  | .Like => "LIKE"
  | .In => "IN"

/-- One conjunct of a WHERE clause. -/
structure WhereCondition where
  column : String
  operator : Operator
  value : UpdateValue

/-- The dialect capability set: seven text-producing operations. -/
structure Dialect where
  add_column : String → String → DataType → Bool → String
  drop_column : String → String → String
  rename_column : String → String → String → String
  change_column_type : String → String → DataType → ColumnOptions → String
  update_column_data : String → String → UpdateValue → List WhereCondition → String
  select_column_data : String → String → String → String
  update_column_data_by_id : String → String → String → String → String → String

/-- The text a value renders to inside an UPDATE: both variants verbatim. -/
def UpdateValue.sql : UpdateValue → String
  | .Fixed val => val
  | .Column col => col

/-- One rendered WHERE conjunct, `column operator value`. -/
def WhereCondition.sql (cond : WhereCondition) : String :=
  cond.column ++ " " ++ cond.operator.as_str ++ " " ++ cond.value.sql

def PostgresDialect.add_column (table column : String) (data_type : DataType)
    (nullable : Bool) : String :=
  "ALTER TABLE " ++ table ++ " ADD COLUMN " ++ column ++ " " ++ data_type.render
    ++ " " ++ (if nullable then "NULL" else "NOT NULL") ++ ";"

def PostgresDialect.drop_column (table column : String) : String :=
  "ALTER TABLE " ++ table ++ " DROP COLUMN " ++ column ++ ";"

def PostgresDialect.rename_column (table old_name new_name : String) : String :=
  "ALTER TABLE " ++ table ++ " RENAME COLUMN " ++ old_name ++ " TO " ++ new_name ++ ";"

def PostgresDialect.change_column_type (table column : String) (new_type : DataType)
    (options : ColumnOptions) : String :=
  let statements := ["ALTER TABLE " ++ table ++ " ALTER COLUMN " ++ column
    ++ " TYPE " ++ new_type.render]
  let statements := match options.nullable with
    | some nullable => statements ++ ["ALTER TABLE " ++ table ++ " ALTER COLUMN "
        ++ column ++ " " ++ (if nullable then "DROP NOT" else "SET NOT") ++ " NULL"]
    | none => statements
  let statements := match options.default with
    | some default_value => statements ++ ["ALTER TABLE " ++ table ++ " ALTER COLUMN "
        ++ column ++ " SET DEFAULT " ++ default_value]
    | none => statements
  let statements := match options.unique with
    | some unique => statements ++
        [if unique then
          "CREATE UNIQUE INDEX IF NOT EXISTS " ++ table ++ "_" ++ column
            ++ "_unique ON " ++ table ++ " (" ++ column ++ ")"
        else
          "DROP INDEX IF EXISTS " ++ table ++ "_" ++ column ++ "_unique"]
    | none => statements
  String.intercalate ";\n" statements

def PostgresDialect.update_column_data (table column : String) (value : UpdateValue)
    (conditions : List WhereCondition) : String :=
  let value_sql := value.sql
  let where_clause :=
    if conditions.isEmpty then ""
    else " WHERE " ++ String.intercalate " AND " (conditions.map WhereCondition.sql)
  "UPDATE " ++ table ++ " SET " ++ column ++ " = " ++ value_sql ++ where_clause ++ ";"

def PostgresDialect.select_column_data (table id_column value_column : String) : String :=
  "SELECT " ++ id_column ++ ", " ++ value_column ++ " FROM " ++ table ++ ";"

def PostgresDialect.update_column_data_by_id
    (table id_column update_column id_value new_value : String) : String :=
  "UPDATE " ++ table ++ " SET " ++ update_column ++ " = " ++ new_value
    ++ " WHERE " ++ id_column ++ " = " ++ id_value ++ ";"

def PostgresDialect.dialect : Dialect where
  add_column := PostgresDialect.add_column
  drop_column := PostgresDialect.drop_column
  rename_column := PostgresDialect.rename_column
  change_column_type := PostgresDialect.change_column_type
  update_column_data := PostgresDialect.update_column_data
  select_column_data := PostgresDialect.select_column_data
  update_column_data_by_id := PostgresDialect.update_column_data_by_id

def MySqlDialect.add_column (table column : String) (data_type : DataType)
    (nullable : Bool) : String :=
  "ALTER TABLE " ++ table ++ " ADD COLUMN " ++ column ++ " " ++ data_type.render
    ++ " " ++ (if nullable then "NULL" else "NOT NULL") ++ ";"

def MySqlDialect.drop_column (table column : String) : String :=
  "ALTER TABLE " ++ table ++ " DROP COLUMN " ++ column ++ ";"

def MySqlDialect.rename_column (table old_name new_name : String) : String :=
  "ALTER TABLE " ++ table ++ " CHANGE COLUMN " ++ old_name ++ " " ++ new_name ++ ";"

def MySqlDialect.change_column_type (table column : String) (new_type : DataType)
    (options : ColumnOptions) : String :=
  let definition := new_type.render
  let definition := match options.nullable with
    | some nullable => definition ++ (if nullable then " NULL" else " NOT NULL")
    | none => definition
  let definition := match options.default with
    | some default_value => definition ++ " DEFAULT " ++ default_value
    | none => definition
  let definition := match options.unique with
    | some true => definition ++ " UNIQUE"
    | _ => definition
  "ALTER TABLE " ++ table ++ " MODIFY COLUMN " ++ column ++ " " ++ definition

def MySqlDialect.update_column_data (table column : String) (value : UpdateValue)
    (conditions : List WhereCondition) : String :=
  let value_sql := value.sql
  let where_clause :=
    if conditions.isEmpty then ""
    else " WHERE " ++ String.intercalate " AND " (conditions.map WhereCondition.sql)
  "UPDATE " ++ table ++ " SET " ++ column ++ " = " ++ value_sql ++ where_clause ++ ";"

def MySqlDialect.select_column_data (table id_column value_column : String) : String :=
  "SELECT " ++ id_column ++ ", " ++ value_column ++ " FROM " ++ table ++ ";"

def MySqlDialect.update_column_data_by_id
    (table id_column update_column id_value new_value : String) : String :=
  "UPDATE " ++ table ++ " SET " ++ update_column ++ " = " ++ new_value
    ++ " WHERE " ++ id_column ++ " = " ++ id_value ++ ";"

def MySqlDialect.dialect : Dialect where
  add_column := MySqlDialect.add_column
  drop_column := MySqlDialect.drop_column
  rename_column := MySqlDialect.rename_column
  change_column_type := MySqlDialect.change_column_type
  update_column_data := MySqlDialect.update_column_data
  select_column_data := MySqlDialect.select_column_data
  update_column_data_by_id := MySqlDialect.update_column_data_by_id

/-- Splitting a character list on a separator, with the semantics of the
source `str::split` call on a one-character pattern: the empty input yields one
empty segment, adjacent or trailing separators yield empty segments. -/
def splitChar (sep : Char) : List Char → List (List Char)
  | [] => [[]]
  | c :: rest =>
    if c = sep then [] :: splitChar sep rest
    else
      match splitChar sep rest with
      | seg :: segs => (c :: seg) :: segs
      | [] => [[c]]

/-- Collecting a list of fallible results; `none` models a panic while the
source iterates. -/
def traverseOption {α β : Type} (f : α → Option β) : List α → Option (List β)
  | [] => some []
  | a :: l =>
    match f a, traverseOption f l with
    | some b, some bs => some (b :: bs)
    | _, _ => none

/-- Parsing one `id:value` segment the way the source does: the text is split
on every colon, the first piece is the id and the SECOND piece is the value
(later pieces are dropped); a segment with no colon makes the second
`unwrap` panic, modelled as `none`. -/
def parsePair (pair : List Char) : Option (String × String) :=
  match splitChar ':' pair with
  | id :: value :: _ => some (String.mk id, String.mk value)
  | _ => none

/-- The update statements an external-process step builds from the captured
standard output: split on `;`, drop empty segments, parse each segment and
render one update-by-id statement per pair, in order. -/
def extUpdates (dialect : Dialect) (table_name id_column update_column : String)
    (stdout : List Char) : Option (List String) :=
  traverseOption
    (fun pair =>
      (parsePair pair).map fun p =>
        dialect.update_column_data_by_id table_name id_column update_column p.1 p.2)
    ((splitChar ';' stdout).filter (fun s => !s.isEmpty))

/-- The full rendering of an external-process step from captured standard
output: the per-pair update statements joined with newlines. -/
def extGenerate (dialect : Dialect) (table_name id_column update_column : String)
    (stdout : List Char) : Option String :=
  (extUpdates dialect table_name id_column update_column stdout).map
    (String.intercalate "\n")

/-- The environment supplying the standard output of an external process, as a
function of the script reference and the SELECT text passed to it. -/
def ExtEnv : Type := String → String → List Char

/-- The six migration-step variants. -/
inductive MigrationStep where
  | addColumn (column : Column)
  | dropColumn (name : String)
  | renameColumn (old_name new_name : String)
  | changeColumnType (column_name : String) (new_type : DataType) (options : ColumnOptions)
  | updateColumnData (column_name : String) (value : UpdateValue)
      (conditions : List WhereCondition)
  | externalProcessColumnData (column_name id_column python_script : String)

/-- Rendering one step against a table name and a dialect.  The five pure
variants always succeed; the external-process variant reads its standard
output from the environment and can fail (`none`) on a malformed segment. -/
def MigrationStep.generate_sql (env : ExtEnv) (table_name : String) (dialect : Dialect) :
    MigrationStep → Option String
  | .addColumn column =>
      some (dialect.add_column table_name column.name column.data_type column.nullable)
  | .dropColumn name => some (dialect.drop_column table_name name)
  | .renameColumn old_name new_name =>
      some (dialect.rename_column table_name old_name new_name)
  | .changeColumnType column_name new_type options =>
      some (dialect.change_column_type table_name column_name new_type options)
  | .updateColumnData column_name value conditions =>
      some (dialect.update_column_data table_name column_name value conditions)
  | .externalProcessColumnData column_name id_column python_script =>
      let select_sql := dialect.select_column_data table_name id_column column_name
      extGenerate dialect table_name id_column column_name (env python_script select_sql)

/-- A migration: a table name, an ordered operation list and a bound dialect. -/
structure Migration where
  table_name : String
  operations : List MigrationStep
  dialect : Dialect

def Migration.new (table_name : String) (dialect : Dialect) : Migration :=
  { table_name := table_name, operations := [], dialect := dialect }

def Migration.add_operation (m : Migration) (op : MigrationStep) : Migration :=
  { m with operations := m.operations ++ [op] }

def Migration.generate_sql (env : ExtEnv) (m : Migration) : Option (List String) :=
  traverseOption (MigrationStep.generate_sql env m.table_name m.dialect) m.operations

/-- Whether the final character of a string is a semicolon: the formal reading of
"terminated with `;`". -/
def semicolonTerminatedB (s : String) : Bool := s.data.getLast? == some ';'

/-- The wire encoding of a list of `id:value` pairs, joined with `;`, as the
external-process protocol describes it. -/
def encodePairs : List (String × String) → List Char
  | [] => []
  | [p] => p.1.data ++ ':' :: p.2.data
  | p :: rest => p.1.data ++ ':' :: p.2.data ++ ';' :: encodePairs rest

/-! Helper lemmas. -/

/-- Splitting a separator-free list yields that list as the only segment. -/
theorem splitChar_eq_single (sep : Char) (a : List Char) (h : sep ∉ a) :
    splitChar sep a = [a] := by
  induction a with
  | nil => rfl
  | cons c rest ih =>
    have hc : ¬ c = sep := by rintro rfl; exact h (by simp)
    have hr : sep ∉ rest := fun hm => h (by simp [hm])
    simp [splitChar, hc, ih hr]

/-- Splitting peels off a separator-free leading segment. -/
theorem splitChar_append_cons (sep : Char) (a b : List Char) (h : sep ∉ a) :
    splitChar sep (a ++ sep :: b) = a :: splitChar sep b := by
  induction a with
  | nil => simp [splitChar]
  | cons c rest ih =>
    have hc : ¬ c = sep := by rintro rfl; exact h (by simp)
    have hr : sep ∉ rest := fun hm => h (by simp [hm])
    simp [splitChar, hc, ih hr]

/-- A list containing at least one element is not empty. -/
theorem isEmpty_append_cons (a : List Char) (c : Char) (b : List Char) :
    (a ++ c :: b).isEmpty = false := by
  cases a <;> simp

/-- A successful traversal produces as many results as inputs. -/
theorem traverseOption_length {α β : Type} (f : α → Option β) (l : List α) (out : List β)
    (h : traverseOption f l = some out) : out.length = l.length := by
  induction l generalizing out with
  | nil =>
    simp only [traverseOption, Option.some.injEq] at h
    simp [← h]
  | cons a rest ih =>
    simp only [traverseOption] at h
    cases hfa : f a with
    | none => rw [hfa] at h; simp at h
    | some b =>
      cases hrest : traverseOption f rest with
      | none => rw [hfa, hrest] at h; simp at h
      | some bs =>
        rw [hfa, hrest] at h
        simp only [Option.some.injEq] at h
        subst h
        simp [ih bs hrest]

/-- A successful traversal maps the i-th input to the i-th result. -/
theorem traverseOption_get {α β : Type} (f : α → Option β) (l : List α) (out : List β)
    (h : traverseOption f l = some out) :
    ∀ (i : Nat) (h1 : i < l.length) (h2 : i < out.length),
      f (l.get ⟨i, h1⟩) = some (out.get ⟨i, h2⟩) := by
  induction l generalizing out with
  | nil => intro i h1 h2; simp at h1
  | cons a rest ih =>
    simp only [traverseOption] at h
    cases hfa : f a with
    | none => rw [hfa] at h; simp at h
    | some b =>
      cases hrest : traverseOption f rest with
      | none => rw [hfa, hrest] at h; simp at h
      | some bs =>
        rw [hfa, hrest] at h
        simp only [Option.some.injEq] at h
        subst h
        intro i h1 h2
        cases i with
        | zero => simpa using hfa
        | succ n =>
          simp only [List.get_cons_succ]
          exact ih bs hrest n (by simpa using h1) (by simpa using h2)

/-- Appending operations one by one extends the operation list in order. -/
theorem foldl_add_operation (m : Migration) (steps : List MigrationStep) :
    List.foldl Migration.add_operation m steps =
      { m with operations := m.operations ++ steps } := by
  induction steps generalizing m with
  | nil => simp
  | cons s rest ih =>
    simp [List.foldl, ih, Migration.add_operation]

/-- Splitting a list made of separators only yields only empty segments. -/
theorem splitChar_of_all_sep (sep : Char) (l : List Char) (h : ∀ c ∈ l, c = sep) :
    ∀ seg ∈ splitChar sep l, seg = [] := by
  induction l with
  | nil => simp [splitChar]
  | cons c rest ih =>
    have hc : c = sep := h c (by simp)
    simp only [splitChar, hc, if_pos rfl]
    intro seg hseg
    rcases List.mem_cons.mp hseg with hnil | hmem
    · exact hnil
    · exact ih (fun c2 hc2 => h c2 (by simp [hc2])) seg hmem

/-- A string built with a final semicolon is semicolon-terminated. -/
theorem semicolonTerminatedB_append (s : String) : semicolonTerminatedB (s ++ ";") = true := by
  show ((s ++ ";").data.getLast? == some ';') = true
  rw [String.data_append]
  rw [List.getLast?_concat]
  rfl

/-- Merging two adjacent string literals before a variable suffix. -/
theorem append_null_default (x : String) :
    (" NULL" : String) ++ (" DEFAULT " ++ x) = " NULL DEFAULT " ++ x := by
  rw [← String.append_assoc]
  congr 1

/-- Merging two adjacent string literals before a variable suffix. -/
theorem append_not_null_default (x : String) :
    (" NOT NULL" : String) ++ (" DEFAULT " ++ x) = " NOT NULL DEFAULT " ++ x := by
  rw [← String.append_assoc]
  congr 1

/-! Claim theorems. -/

/-- C1 (counterexample): in the MySQL dialect, `unique = some false` emits no
clause at all — the output is identical to the output for `unique = none` and
contains no negative unique form, contradicting the claim that `Some(false)`
emits the explicit negative form in both dialects. -/
theorem mysql_unique_some_false_emits_no_clause :
    MySqlDialect.change_column_type "t" "c" DataType.Integer ⟨none, none, some false⟩ =
      MySqlDialect.change_column_type "t" "c" DataType.Integer ⟨none, none, none⟩
    ∧ MySqlDialect.change_column_type "t" "c" DataType.Integer ⟨none, none, some false⟩ =
      "ALTER TABLE t MODIFY COLUMN c INTEGER" :=
  ⟨rfl, by decide⟩

/-- C1 (amended): for every table, column, type and options, the three
`ColumnOptions` fields independently control clause emission in both
`change_column_type` implementations.  A `none` field emits no clause; for
`nullable`, `some false` emits the explicit not-null form in both dialects;
for `unique`, PostgreSQL emits the index drop on `some false`, while MySQL
appends a UNIQUE clause only on `some true` and emits nothing for
`some false`. -/
theorem change_column_type_clause_emission (table column : String) (new_type : DataType)
    (nullable : Option Bool) (default_value : Option String) (unique : Option Bool) :
    PostgresDialect.change_column_type table column new_type ⟨nullable, default_value, unique⟩ =
      String.intercalate ";\n"
        (["ALTER TABLE " ++ table ++ " ALTER COLUMN " ++ column ++ " TYPE " ++ new_type.render]
          ++ (match nullable with
              | none => []
              | some true =>
                ["ALTER TABLE " ++ table ++ " ALTER COLUMN " ++ column ++ " DROP NOT NULL"]
              | some false =>
                ["ALTER TABLE " ++ table ++ " ALTER COLUMN " ++ column ++ " SET NOT NULL"])
          ++ (match default_value with
              | none => []
              | some v =>
                ["ALTER TABLE " ++ table ++ " ALTER COLUMN " ++ column ++ " SET DEFAULT " ++ v])
          ++ (match unique with
              | none => []
              | some true =>
                ["CREATE UNIQUE INDEX IF NOT EXISTS " ++ table ++ "_" ++ column
                  ++ "_unique ON " ++ table ++ " (" ++ column ++ ")"]
              | some false =>
                ["DROP INDEX IF EXISTS " ++ table ++ "_" ++ column ++ "_unique"]))
    ∧ MySqlDialect.change_column_type table column new_type ⟨nullable, default_value, unique⟩ =
      "ALTER TABLE " ++ table ++ " MODIFY COLUMN " ++ column ++ " " ++ new_type.render
        ++ (match nullable with
            | none => ""
            | some true => " NULL"
            | some false => " NOT NULL")
        ++ (match default_value with
            | none => ""
            | some v => " DEFAULT " ++ v)
        ++ (if unique = some true then " UNIQUE" else "") := by
  rcases nullable with _ | (_ | _) <;> rcases default_value with _ | v <;>
    rcases unique with _ | (_ | _) <;>
    refine ⟨?_, ?_⟩ <;>
    simp [PostgresDialect.change_column_type, MySqlDialect.change_column_type,
      String.append_assoc, append_null_default, append_not_null_default]

/-- C2 (counterexample): on the output segment `1:a:b`, the code takes only
the text between the first and the second colon as the value, producing the
statement with value `a`; the claim, which takes everything after the first
colon, would require the statement with value `a:b` instead. -/
theorem ext_value_not_everything_after_first_colon :
    extGenerate PostgresDialect.dialect "t" "id" "v" ("1:a:b".data) =
      some "UPDATE t SET v = a WHERE id = 1;"
    ∧ ("UPDATE t SET v = a WHERE id = 1;" : String) ≠ "UPDATE t SET v = a:b WHERE id = 1;" :=
  ⟨by rfl, by decide⟩

/-- C2 (amended): the external-process output is split on `;`, empty segments
are ignored, each remaining segment is split on `:` with the piece before the
first colon as id and the piece between the first and second colon as value,
and the result is one update-by-id statement per pair, newline-joined, in the
order the pairs appeared, without sorting and without deduplication — shown
here as a round trip over every encoded pair list whose ids and values are
free of both separator characters (duplicated pairs included). -/
theorem ext_protocol_roundtrip (dialect : Dialect) (table_name id_column update_column : String)
    (pairs : List (String × String))
    (h : ∀ p ∈ pairs, ';' ∉ p.1.data ∧ ':' ∉ p.1.data ∧ ';' ∉ p.2.data ∧ ':' ∉ p.2.data) :
    extGenerate dialect table_name id_column update_column (encodePairs pairs) =
      some (String.intercalate "\n"
        (pairs.map fun p =>
          dialect.update_column_data_by_id table_name id_column update_column p.1 p.2)) := by
  suffices hs : extUpdates dialect table_name id_column update_column (encodePairs pairs) =
      some (pairs.map fun p =>
        dialect.update_column_data_by_id table_name id_column update_column p.1 p.2) by
    simp [extGenerate, hs]
  induction pairs with
  | nil => rfl
  | cons p rest ih =>
    obtain ⟨h1, h2, h3, h4⟩ := h p (by simp)
    have hseg : ';' ∉ p.1.data ++ ':' :: p.2.data := by
      simp only [List.mem_append, List.mem_cons]
      rintro (hm | hm | hm)
      · exact h1 hm
      · exact absurd hm (by decide)
      · exact h3 hm
    have hparse : parsePair (p.1.data ++ ':' :: p.2.data) = some (p.1, p.2) := by
      unfold parsePair
      rw [splitChar_append_cons ':' _ _ h2, splitChar_eq_single ':' _ h4]
    cases rest with
    | nil =>
      show extUpdates _ _ _ _ (p.1.data ++ ':' :: p.2.data) = _
      unfold extUpdates
      rw [splitChar_eq_single ';' _ hseg]
      simp [List.filter_cons, isEmpty_append_cons, traverseOption, hparse]
    | cons q rest2 =>
      have hrec' : traverseOption
          (fun pair => (parsePair pair).map fun pr =>
            dialect.update_column_data_by_id table_name id_column update_column pr.1 pr.2)
          ((splitChar ';' (encodePairs (q :: rest2))).filter (fun s => !s.isEmpty)) =
          some ((q :: rest2).map fun p' =>
            dialect.update_column_data_by_id table_name id_column update_column p'.1 p'.2) :=
        ih (fun p' hp' => h p' (by simp [hp']))
      show extUpdates _ _ _ _
          ((p.1.data ++ ':' :: p.2.data) ++ ';' :: encodePairs (q :: rest2)) = _
      unfold extUpdates
      rw [splitChar_append_cons ';' _ _ hseg]
      simp [List.filter_cons, isEmpty_append_cons, traverseOption, hparse, hrec']

/-- C2 (witness): the round trip evaluated on a concrete pair list containing
a duplicated pair, yielding duplicated update statements in order. -/
theorem ext_protocol_roundtrip_witness :
    extGenerate PostgresDialect.dialect "users" "id" "status"
      (encodePairs [("1", "active"), ("2", "inactive"), ("1", "active")]) =
      some (String.intercalate "\n"
        ([("1", "active"), ("2", "inactive"), ("1", "active")].map fun p =>
          PostgresDialect.dialect.update_column_data_by_id "users" "id" "status" p.1 p.2)) :=
  ext_protocol_roundtrip PostgresDialect.dialect "users" "id" "status"
    [("1", "active"), ("2", "inactive"), ("1", "active")] (by decide)

/-- C3: on the output segment `:active`, whose id side is empty and therefore
malformed, the code neither skips the pair nor fails the step: it silently
emits an UPDATE statement built from the empty id, with a dangling equality
in its WHERE clause. -/
theorem ext_empty_id_silently_emits_update :
    extGenerate PostgresDialect.dialect "users" "id" "status" (":active".data) =
      some "UPDATE users SET status = active WHERE id = ;" := by rfl

/-- C4: a Migration over table `users` bound to the MySQL dialect with one
`ChangeColumnType{age, Integer, {nullable: some false, default: some 0,
unique: none}}` step renders to exactly the claimed single statement, with the
populated options concatenated inline in nullable-then-default-then-unique
order. -/
theorem mysql_change_column_type_end_to_end (env : ExtEnv) :
    ((Migration.new "users" MySqlDialect.dialect).add_operation
        (.changeColumnType "age" .Integer ⟨some false, some "0", none⟩)).generate_sql env =
      some ["ALTER TABLE users MODIFY COLUMN age INTEGER NOT NULL DEFAULT 0"] := rfl

/-- C5: for every table, old name and new name, the PostgreSQL rename output
is `ALTER TABLE t RENAME COLUMN old TO new;`, the MySQL rename output is
`ALTER TABLE t CHANGE COLUMN old new;`, and the two outputs always differ. -/
theorem rename_column_dialect_divergence (table old_name new_name : String) :
    PostgresDialect.rename_column table old_name new_name =
      "ALTER TABLE " ++ table ++ " RENAME COLUMN " ++ old_name ++ " TO " ++ new_name ++ ";"
    ∧ MySqlDialect.rename_column table old_name new_name =
      "ALTER TABLE " ++ table ++ " CHANGE COLUMN " ++ old_name ++ " " ++ new_name ++ ";"
    ∧ PostgresDialect.rename_column table old_name new_name ≠
      MySqlDialect.rename_column table old_name new_name := by
  refine ⟨rfl, rfl, fun h => ?_⟩
  have h2 := congrArg String.data h
  simp only [PostgresDialect.rename_column, MySqlDialect.rename_column,
    String.data_append, List.append_assoc] at h2
  have h3 := List.append_cancel_left (List.append_cancel_left h2)
  have h4 := congrArg (List.take 2) h3
  simp only [List.cons_append, List.take_succ_cons, List.take_zero] at h4
  exact absurd h4 (by decide)

/-- C6: in both dialects, `update_column_data` returns
`UPDATE table SET col = value`, followed by no WHERE clause when the condition
list is empty and otherwise by the conditions rendered `col op value`, joined
with AND in the order supplied, and terminated with a semicolon. -/
theorem update_column_data_where_composition (table column : String) (value : UpdateValue)
    (conditions : List WhereCondition) :
    PostgresDialect.update_column_data table column value conditions =
      "UPDATE " ++ table ++ " SET " ++ column ++ " = " ++ value.sql ++
        (if conditions.isEmpty then ""
         else " WHERE " ++ String.intercalate " AND "
           (conditions.map fun cond =>
             cond.column ++ " " ++ cond.operator.as_str ++ " " ++ cond.value.sql)) ++ ";"
    ∧ MySqlDialect.update_column_data table column value conditions =
      "UPDATE " ++ table ++ " SET " ++ column ++ " = " ++ value.sql ++
        (if conditions.isEmpty then ""
         else " WHERE " ++ String.intercalate " AND "
           (conditions.map fun cond =>
             cond.column ++ " " ++ cond.operator.as_str ++ " " ++ cond.value.sql)) ++ ";" :=
  ⟨rfl, rfl⟩

/-- C7: for every table, dialect, environment and sequence of appended steps,
whenever `Migration.generate_sql` returns a statement list, that list has one
entry per appended operation and its i-th entry is the rendering of the i-th
appended step against the bound table name and dialect. -/
theorem migration_generate_sql_order (table_name : String) (dialect : Dialect)
    (steps : List MigrationStep) (env : ExtEnv) (out : List String)
    (h : (steps.foldl Migration.add_operation
        (Migration.new table_name dialect)).generate_sql env = some out) :
    out.length = steps.length ∧
    ∀ (i : Nat) (h1 : i < steps.length) (h2 : i < out.length),
      MigrationStep.generate_sql env table_name dialect (steps.get ⟨i, h1⟩) =
        some (out.get ⟨i, h2⟩) := by
  rw [foldl_add_operation] at h
  simp only [Migration.generate_sql, Migration.new, List.nil_append] at h
  exact ⟨traverseOption_length _ _ _ h, traverseOption_get _ _ _ h⟩

/-- C7 (witness): the ordering theorem evaluated on a concrete migration with
two appended steps. -/
theorem migration_generate_sql_order_witness :
    (["ALTER TABLE users DROP COLUMN a;",
      "ALTER TABLE users RENAME COLUMN b TO c;"] : List String).length =
      ([MigrationStep.dropColumn "a", MigrationStep.renameColumn "b" "c"]).length ∧
    ∀ (i : Nat)
      (h1 : i < ([MigrationStep.dropColumn "a", MigrationStep.renameColumn "b" "c"]).length)
      (h2 : i < (["ALTER TABLE users DROP COLUMN a;",
        "ALTER TABLE users RENAME COLUMN b TO c;"] : List String).length),
      MigrationStep.generate_sql (fun _ _ => []) "users" PostgresDialect.dialect
          (([MigrationStep.dropColumn "a", MigrationStep.renameColumn "b" "c"]).get ⟨i, h1⟩) =
        some ((["ALTER TABLE users DROP COLUMN a;",
          "ALTER TABLE users RENAME COLUMN b TO c;"] : List String).get ⟨i, h2⟩) :=
  migration_generate_sql_order "users" PostgresDialect.dialect
    [MigrationStep.dropColumn "a", MigrationStep.renameColumn "b" "c"]
    (fun _ _ => [])
    ["ALTER TABLE users DROP COLUMN a;", "ALTER TABLE users RENAME COLUMN b TO c;"]
    (by rfl)

/-- C8 (counterexample): the MySQL `change_column_type` output is a single
statement with no trailing semicolon, contradicting the claim that every
string returned by a dialect operation is semicolon-terminated. -/
theorem mysql_change_column_type_not_semicolon_terminated :
    semicolonTerminatedB
      (MySqlDialect.change_column_type "t" "c" DataType.Integer ⟨none, none, none⟩) = false := by
  decide

/-- C8 (amended): for every input, the six operations other than
`change_column_type` produce semicolon-terminated text in both dialects;
`change_column_type` output is not semicolon-terminated in either dialect
(PostgreSQL joins its statements with a semicolon-newline separator, leaving
the final statement unterminated, and MySQL emits a single unterminated
statement), shown for every type with all options absent. -/
theorem dialect_semicolon_termination :
    (∀ (table column : String) (data_type : DataType) (nullable : Bool),
      semicolonTerminatedB (PostgresDialect.add_column table column data_type nullable) = true
      ∧ semicolonTerminatedB (MySqlDialect.add_column table column data_type nullable) = true)
    ∧ (∀ table column : String,
      semicolonTerminatedB (PostgresDialect.drop_column table column) = true
      ∧ semicolonTerminatedB (MySqlDialect.drop_column table column) = true)
    ∧ (∀ table old_name new_name : String,
      semicolonTerminatedB (PostgresDialect.rename_column table old_name new_name) = true
      ∧ semicolonTerminatedB (MySqlDialect.rename_column table old_name new_name) = true)
    ∧ (∀ (table column : String) (value : UpdateValue) (conditions : List WhereCondition),
      semicolonTerminatedB (PostgresDialect.update_column_data table column value conditions)
        = true
      ∧ semicolonTerminatedB (MySqlDialect.update_column_data table column value conditions)
        = true)
    ∧ (∀ table id_column value_column : String,
      semicolonTerminatedB (PostgresDialect.select_column_data table id_column value_column)
        = true
      ∧ semicolonTerminatedB (MySqlDialect.select_column_data table id_column value_column)
        = true)
    ∧ (∀ table id_column update_column id_value new_value : String,
      semicolonTerminatedB
        (PostgresDialect.update_column_data_by_id table id_column update_column id_value
          new_value) = true
      ∧ semicolonTerminatedB
        (MySqlDialect.update_column_data_by_id table id_column update_column id_value
          new_value) = true)
    ∧ (∀ new_type : DataType,
      semicolonTerminatedB
        (PostgresDialect.change_column_type "t" "c" new_type ⟨none, none, none⟩) = false
      ∧ semicolonTerminatedB
        (MySqlDialect.change_column_type "t" "c" new_type ⟨none, none, none⟩) = false) :=
  ⟨fun _ _ _ _ => ⟨semicolonTerminatedB_append _, semicolonTerminatedB_append _⟩,
   fun _ _ => ⟨semicolonTerminatedB_append _, semicolonTerminatedB_append _⟩,
   fun _ _ _ => ⟨semicolonTerminatedB_append _, semicolonTerminatedB_append _⟩,
   fun _ _ _ _ => ⟨semicolonTerminatedB_append _, semicolonTerminatedB_append _⟩,
   fun _ _ _ => ⟨semicolonTerminatedB_append _, semicolonTerminatedB_append _⟩,
   fun _ _ _ _ _ => ⟨semicolonTerminatedB_append _, semicolonTerminatedB_append _⟩,
   fun new_type => by cases new_type <;> exact ⟨by decide, by decide⟩⟩

/-- C9: the two dialect implementations return identical strings on every
input for add-column, drop-column, update-column-data, select-column-data and
update-by-id, while rename-column and change-column-type each admit an input
on which the two dialects disagree. -/
theorem dialect_shared_operations_agree :
    (∀ (table column : String) (data_type : DataType) (nullable : Bool),
      PostgresDialect.add_column table column data_type nullable =
        MySqlDialect.add_column table column data_type nullable)
    ∧ (∀ table column : String,
        PostgresDialect.drop_column table column = MySqlDialect.drop_column table column)
    ∧ (∀ (table column : String) (value : UpdateValue) (conditions : List WhereCondition),
        PostgresDialect.update_column_data table column value conditions =
          MySqlDialect.update_column_data table column value conditions)
    ∧ (∀ table id_column value_column : String,
        PostgresDialect.select_column_data table id_column value_column =
          MySqlDialect.select_column_data table id_column value_column)
    ∧ (∀ table id_column update_column id_value new_value : String,
        PostgresDialect.update_column_data_by_id table id_column update_column id_value
          new_value =
          MySqlDialect.update_column_data_by_id table id_column update_column id_value
            new_value)
    ∧ (∃ table old_name new_name : String,
        PostgresDialect.rename_column table old_name new_name ≠
          MySqlDialect.rename_column table old_name new_name)
    ∧ (∃ (table column : String) (new_type : DataType) (options : ColumnOptions),
        PostgresDialect.change_column_type table column new_type options ≠
          MySqlDialect.change_column_type table column new_type options) :=
  ⟨fun _ _ _ _ => rfl, fun _ _ => rfl, fun _ _ _ _ => rfl, fun _ _ _ => rfl,
    fun _ _ _ _ _ => rfl,
    ⟨"t", "a", "b", by decide⟩,
    ⟨"t", "c", DataType.Integer, ⟨none, none, none⟩, by decide⟩⟩

/-- C10: when the external process succeeds and its standard output is empty
or consists only of semicolon separators, the external-process step renders
to the empty string — zero update statements — rather than failing. -/
theorem ext_separator_only_output_empty (dialect : Dialect) (env : ExtEnv)
    (table_name column_name id_column python_script : String)
    (h : ∀ c ∈ env python_script
        (dialect.select_column_data table_name id_column column_name), c = ';') :
    MigrationStep.generate_sql env table_name dialect
      (.externalProcessColumnData column_name id_column python_script) = some "" := by
  simp only [MigrationStep.generate_sql, extGenerate, extUpdates]
  have hsegs := splitChar_of_all_sep ';' _ h
  have hfilter : ((splitChar ';'
      (env python_script (dialect.select_column_data table_name id_column column_name))).filter
        (fun s => !s.isEmpty)) = [] := by
    rw [List.filter_eq_nil_iff]
    intro seg hseg
    simp [hsegs seg hseg]
  rw [hfilter]
  rfl

/-- C10 (witness): the separator-only theorem evaluated on the concrete
standard output consisting of two semicolons. -/
theorem ext_separator_only_output_empty_witness :
    MigrationStep.generate_sql (fun _ _ => [';', ';']) "users" PostgresDialect.dialect
      (.externalProcessColumnData "status" "id" "clean.py") = some "" :=
  ext_separator_only_output_empty PostgresDialect.dialect (fun _ _ => [';', ';'])
    "users" "status" "id" "clean.py" (by decide)
